import Mathlib

/-!
Shallow embedding of `src/code.py` (E-Stop USB controller).

The program is a single polling control loop over module-level mutable
state (class `State`), two output pins (`LED_START`, `LED_READY`), two
input pins (`ESTOP`, `KEYCYL`) and a HID keyboard sink.  We model:

* the compile-time settings (`DISABLE_KEYCYL`, `DISABLE_LEDS`,
  `FLASHING_LEDS_ONLY`, `DELAY`, `DWELL`, `FLASHTIME`) as a `Config`
  record, so the theorems quantify over every setting;
* the mutable state plus the two output pin values as a `Machine` record;
* one iteration of the `while True` body of `main` as a pure function
  `step` taking the two input pin readings and the clock reading `now`
  (`time.monotonic()`), returning the updated machine together with the
  list of externally visible calls made during the iteration (`Event`):
  HID `press` / `release_all` and the requested-state arguments of each
  `Pins.setPin` / `Pins.togglePin` call, in call order.

Timestamps are rationals: the Python float clock values are only ever
subtracted and compared, so an ordered field faithfully captures every
timing comparison in the source.
-/

/-- Compile-time settings from the Settings section of `code.py`. -/
structure Config where
  disableKeycyl : Bool
  disableLeds : Bool
  flashingLedsOnly : Bool
  delay : Rat
  dwell : Rat
  flashtime : Rat
deriving DecidableEq

/-- Mutable program state: the fields of the `State` class plus the two
output pin values owned by `Pins`. -/
structure Machine where
  active : Bool
  keyDown : Bool
  timeActivated : Rat
  timeLastFlashed : Rat
  timeLastKeypress : Rat
  ledStart : Bool
  ledReady : Bool
deriving DecidableEq

/-- Externally visible calls made during one loop iteration: HID key
events and indicator-driver requests (recorded with the requested state,
before the override policy is applied). -/
inductive Event where
  | press : Event
  | releaseAll : Event
  | setStart : Bool → Event
  | setReady : Bool → Event
  | toggleReady : Event
deriving DecidableEq

/-- Model of `Pins.togglePin`: the new value of the pin computed from
its current value.  If `DISABLE_LEDS`, the pin is forced off; otherwise
the current value is XOR-ed with true. -/
def togglePin (cfg : Config) (v : Bool) : Bool :=
  if cfg.disableLeds then false else xor v true

/-- Model of `Pins.setPin`: the new value of the pin computed from the
requested state.  If `DISABLE_LEDS or FLASHING_LEDS_ONLY`, the pin is
forced off; otherwise it takes the requested state. -/
def setPin (cfg : Config) (s : Bool) : Bool :=
  if cfg.disableLeds || cfg.flashingLedsOnly then false else s

/-- Model of `checkStops()`: returns false (not triggered) when the
button reads high and the cylinder reads high or is disabled, else true
(triggered). -/
def checkStops (cfg : Config) (estop keycyl : Bool) : Bool :=
  if estop && (keycyl || cfg.disableKeycyl) then false else true

/-- Model of `sendKeyPress()`: press the key, request the start LED off,
set `keyDown`, stamp `timeLastKeypress` with the clock. -/
def sendKeyPress (cfg : Config) (now : Rat) (m : Machine) :
    Machine × List Event :=
  ({ m with ledStart := setPin cfg false,
            keyDown := true,
            timeLastKeypress := now },
   [Event.press, Event.setStart false])

/-- Model of `releaseKeyPress()`: release all keys, clear `keyDown`,
request the start LED on. -/
def releaseKeyPress (cfg : Config) (m : Machine) :
    Machine × List Event :=
  ({ m with keyDown := false, ledStart := setPin cfg true },
   [Event.releaseAll, Event.setStart true])

/-- One iteration of the body of `main`'s `while True` loop.  `estop`
and `keycyl` are the input pin readings for this iteration and `now` the
monotonic clock reading. -/
def step (cfg : Config) (estop keycyl : Bool) (now : Rat) (m : Machine) :
    Machine × List Event :=
  if checkStops cfg estop keycyl then
    if m.active then
      let p1 : Machine × List Event :=
        if m.keyDown then
          if now - m.timeLastKeypress ≥ cfg.dwell then
            releaseKeyPress cfg m
          else (m, [])
        else
          if now - m.timeLastKeypress ≥ cfg.delay then
            sendKeyPress cfg now m
          else (m, [])
      if now - p1.1.timeLastFlashed ≥ cfg.flashtime then
        ({ p1.1 with ledReady := togglePin cfg p1.1.ledReady,
                     timeLastFlashed := now },
         p1.2 ++ [Event.toggleReady])
      else p1
    else
      ({ m with active := true,
                timeActivated := now,
                timeLastKeypress := -100 },
       [])
  else
    if m.active then
      let m1 : Machine :=
        { m with active := false,
                 ledReady := setPin cfg true,
                 ledStart := setPin cfg false }
      let p2 := releaseKeyPress cfg m1
      (p2.1, [Event.setReady true, Event.setStart false] ++ p2.2)
    else (m, [])

/-- Startup state: the `State()` class initialisers plus the initial LED
values set in the `Pins` constructor. -/
def initMachine (cfg : Config) : Machine :=
  { active := false
    keyDown := false
    timeActivated := -100
    timeLastFlashed := -100
    timeLastKeypress := -100
    ledStart := !(cfg.disableLeds || cfg.flashingLedsOnly)
    ledReady := !(cfg.disableLeds || cfg.flashingLedsOnly) }

/-- Run the loop over a list of (estop, keycyl, clock) samples, one
sample per iteration. -/
def run (cfg : Config) (m : Machine) : List (Bool × Bool × Rat) → Machine
  | [] => m
  | i :: is => run cfg (step cfg i.1 i.2.1 i.2.2 m).1 is

/-- Sample configuration with the source's shipped values
(`DISABLE_KEYCYL = True`, LEDs enabled, `DELAY = 5`, `DWELL = 0.25`,
`FLASHTIME = 0.25`), used for concrete evaluations. -/
def cfgShip : Config :=
  { disableKeycyl := true
    disableLeds := false
    flashingLedsOnly := false
    delay := 5
    dwell := 1/4
    flashtime := 1/4 }

/-- Concrete machine: inactive, key up, all stamps at clock 0. -/
def mIdle : Machine :=
  { active := false, keyDown := false, timeActivated := 0,
    timeLastFlashed := 0, timeLastKeypress := 0, ledStart := true, ledReady := true }

/-- Concrete machine: active, key up, last keypress at clock 0. -/
def mArmed : Machine :=
  { active := true, keyDown := false, timeActivated := 0,
    timeLastFlashed := 0, timeLastKeypress := 0, ledStart := true, ledReady := true }

/-- Concrete machine: active and mid-dwell (key currently held). -/
def mDwell : Machine :=
  { active := true, keyDown := true, timeActivated := 0,
    timeLastFlashed := 0, timeLastKeypress := 0, ledStart := false, ledReady := true }

/-- Concrete machine: active, key up, flash stamp far in the past. -/
def mFlash : Machine :=
  { active := true, keyDown := false, timeActivated := 0,
    timeLastFlashed := -100, timeLastKeypress := 0, ledStart := false, ledReady := true }

/-- Helper for C2: one `step` preserves the keyDown-implies-active
invariant. -/
lemma step_kd_imp_active (cfg : Config) (e k : Bool) (now : Rat) (m : Machine)
    (h : m.keyDown = true → m.active = true) :
    (step cfg e k now m).1.keyDown = true → (step cfg e k now m).1.active = true := by
  simp only [step]
  split_ifs <;> simp_all [sendKeyPress, releaseKeyPress]

/-- Helper for C2: `run` preserves the keyDown-implies-active invariant
from any starting machine. -/
lemma run_kd_imp_active (cfg : Config) (inputs : List (Bool × Bool × Rat)) :
    ∀ m : Machine, (m.keyDown = true → m.active = true) →
      ((run cfg m inputs).keyDown = true → (run cfg m inputs).active = true) := by
  induction inputs with
  | nil => intro m h; simpa [run] using h
  | cons i is ih =>
      intro m h
      simpa [run] using ih _ (step_kd_imp_active cfg i.1 i.2.1 i.2.2 m h)

/-- Claim C3: for every combination of the two input readings and the
`DISABLE_KEYCYL` flag, `checkStops` returns
NOT(button high AND (cylinder high OR cylinder check disabled)); and
with the cylinder check disabled the result is independent of the
cylinder reading. -/
theorem checkStops_spec (cfg : Config) (e k k2 : Bool) :
    checkStops cfg e k = !(e && (k || cfg.disableKeycyl)) ∧
    checkStops { cfg with disableKeycyl := true } e k =
      checkStops { cfg with disableKeycyl := true } e k2 := by
  cases e <;> cases k <;> cases k2 <;> simp [checkStops]

/-- Claim C7: with `DISABLE_LEDS` set, every `setPin` and every
`togglePin` leaves the pin off, for every requested state, every prior
pin value and every setting of the other switches. -/
theorem setPin_togglePin_disabled (cfg : Config) (s v : Bool) :
    setPin { cfg with disableLeds := true } s = false ∧
    togglePin { cfg with disableLeds := true } v = false := by
  simp [setPin, togglePin]

/-- Claim C8: with `FLASHING_LEDS_ONLY` set and `DISABLE_LEDS` clear,
every `setPin` leaves the pin off regardless of the requested state,
while `togglePin` still inverts the current value, so a toggle can turn
an indicator on. -/
theorem setPin_togglePin_flashingOnly (cfg : Config) (s v : Bool) :
    setPin { cfg with disableLeds := false, flashingLedsOnly := true } s = false ∧
    togglePin { cfg with disableLeds := false, flashingLedsOnly := true } v = !v ∧
    togglePin { cfg with disableLeds := false, flashingLedsOnly := true } false = true := by
  cases v <;> simp [setPin, togglePin]

/-- Claim C2: at every iteration boundary of the loop started from the
startup state, `keyDown = true` implies `active = true`: the emulated
key is never held while the state machine is inactive. -/
theorem keyDown_implies_active (cfg : Config) (inputs : List (Bool × Bool × Rat))
    (h : (run cfg (initMachine cfg) inputs).keyDown = true) :
    (run cfg (initMachine cfg) inputs).active = true :=
  run_kd_imp_active cfg inputs (initMachine cfg) (by simp [initMachine]) h

/-- Witness for C2: after two triggered iterations from startup, the key
is down, and the theorem yields that the machine is active. -/
theorem keyDown_implies_active_witness :
    (run cfgShip (initMachine cfgShip) [(false, false, 0), (false, false, 1/100)]).keyDown = true ∧
    (run cfgShip (initMachine cfgShip) [(false, false, 0), (false, false, 1/100)]).active = true :=
  ⟨by norm_num [run, step, sendKeyPress, releaseKeyPress, checkStops, setPin, togglePin,
                initMachine, cfgShip],
   keyDown_implies_active cfgShip _
     (by norm_num [run, step, sendKeyPress, releaseKeyPress, checkStops, setPin, togglePin,
                   initMachine, cfgShip])⟩

/-- Claim C5: in a triggered iteration with the state active, if the key
is up a press occurs exactly when elapsed time since `timeLastKeypress`
is at least `DELAY` (equality counts), and if the key is down a release
occurs exactly when elapsed time is at least `DWELL` (equality counts),
never before. -/
theorem active_press_release_timing (cfg : Config) (e k : Bool) (now : Rat) (m : Machine)
    (ht : checkStops cfg e k = true) (ha : m.active = true) :
    (m.keyDown = false →
      (Event.press ∈ (step cfg e k now m).2 ↔ now - m.timeLastKeypress ≥ cfg.delay)) ∧
    (m.keyDown = true →
      (Event.releaseAll ∈ (step cfg e k now m).2 ↔ now - m.timeLastKeypress ≥ cfg.dwell)) := by
  simp only [step, ht, ha, if_true]
  split_ifs <;> simp_all [sendKeyPress, releaseKeyPress]

/-- Witness for C5: with the shipped configuration, active state, key
up, last press at clock 0 and clock 10 (elapsed 10 ≥ DELAY = 5), the
theorem yields that a press occurs. -/
theorem active_press_release_timing_witness :
    checkStops cfgShip false false = true ∧ mArmed.active = true ∧ mArmed.keyDown = false ∧
    Event.press ∈ (step cfgShip false false 10 mArmed).2 :=
  ⟨by decide, by decide, by decide,
   ((active_press_release_timing cfgShip false false 10 mArmed (by decide) (by decide)).1
      (by decide)).mpr (by norm_num [mArmed, cfgShip])⟩

/-- Counterexample to claim C6 as stated: a machine that is active with
elapsed time since `timeLastFlashed` far above `FLASHTIME`, read with
safe inputs (not triggered), performs no ready-indicator toggle in that
iteration — so "toggled exactly when the state is Active and the
half-period has elapsed" fails on Active-to-Inactive transition
iterations. -/
theorem readyToggle_claim_cex :
    mFlash.active = true ∧
    (0 : Rat) - mFlash.timeLastFlashed ≥ cfgShip.flashtime ∧
    Event.toggleReady ∉ (step cfgShip true true 0 mFlash).2 := by
  refine ⟨by decide, by norm_num [mFlash, cfgShip], ?_⟩
  norm_num [mFlash, cfgShip, step, checkStops, releaseKeyPress, setPin]
  decide

/-- Claim C6 (amended): the ready indicator is toggled in an iteration
exactly when the evaluator reports triggered, the state is active, and
elapsed time since `timeLastFlashed` is at least `FLASHTIME`; the
toggle stamps `timeLastFlashed` with the clock.  In particular no
iteration starting inactive ever toggles it. -/
theorem readyToggle_iff (cfg : Config) (e k : Bool) (now : Rat) (m : Machine) :
    (Event.toggleReady ∈ (step cfg e k now m).2 ↔
      checkStops cfg e k = true ∧ m.active = true ∧ now - m.timeLastFlashed ≥ cfg.flashtime) ∧
    (Event.toggleReady ∈ (step cfg e k now m).2 →
      (step cfg e k now m).1.timeLastFlashed = now) := by
  simp only [step]
  split_ifs <;> simp_all [sendKeyPress, releaseKeyPress]

/-- Witness for C6 (amended): a triggered, active iteration with the
flash stamp far in the past does toggle the ready indicator. -/
theorem readyToggle_iff_witness :
    checkStops cfgShip false false = true ∧ mFlash.active = true ∧
    (0 : Rat) - mFlash.timeLastFlashed ≥ cfgShip.flashtime ∧
    Event.toggleReady ∈ (step cfgShip false false 0 mFlash).2 :=
  ⟨by decide, by decide, by norm_num [mFlash, cfgShip],
   (readyToggle_iff cfgShip false false 0 mFlash).1.mpr
     ⟨by decide, by decide, by norm_num [mFlash, cfgShip]⟩⟩

/-- Counterexample to claim C1 as stated: on the Inactive-to-Active
transition iteration from startup the state becomes active, but the
event list of that iteration is empty — no key press occurs in the same
iteration (it occurs in the next triggered iteration). -/
theorem firstPress_same_iteration_cex :
    checkStops cfgShip false false = true ∧
    (initMachine cfgShip).active = false ∧
    (step cfgShip false false 0 (initMachine cfgShip)).1.active = true ∧
    (step cfgShip false false 0 (initMachine cfgShip)).2 = [] :=
  ⟨by decide, by decide, by decide, by decide⟩

/-- Claim C1 (amended): a triggered iteration in the inactive state (key
up) sets `active`, stamps `timeActivated` with the clock, resets
`timeLastKeypress` to the sentinel −100 and performs no side effect in
that iteration; any subsequent triggered iteration whose clock `now2`
satisfies `now2 + 100 ≥ DELAY` then presses the key. -/
theorem inactive_trigger_transition (cfg : Config) (e k : Bool) (now : Rat) (m : Machine)
    (ht : checkStops cfg e k = true) (ha : m.active = false) (hk : m.keyDown = false) :
    (step cfg e k now m).1.active = true ∧
    (step cfg e k now m).1.timeActivated = now ∧
    (step cfg e k now m).1.timeLastKeypress = -100 ∧
    (step cfg e k now m).2 = [] ∧
    ∀ e2 k2 : Bool, ∀ now2 : Rat, checkStops cfg e2 k2 = true →
      now2 + 100 ≥ cfg.delay →
      Event.press ∈ (step cfg e2 k2 now2 (step cfg e k now m).1).2 := by
  have hstep : step cfg e k now m =
      ({ m with active := true, timeActivated := now, timeLastKeypress := -100 }, []) := by
    simp [step, ht, ha]
  refine ⟨by simp [hstep], by simp [hstep], by simp [hstep], by simp [hstep], ?_⟩
  intro e2 k2 now2 ht2 hd
  rw [hstep]
  simp only [step, ht2, if_true]
  simp only [hk, sendKeyPress]
  rw [ge_iff_le] at hd
  simp [sub_neg_eq_add, hd]
  split_ifs <;> simp

/-- Witness for C1 (amended): from startup, a triggered iteration at
clock 0 transitions to active, and the next triggered iteration at
clock 1/100 presses the key. -/
theorem inactive_trigger_transition_witness :
    checkStops cfgShip false false = true ∧
    (initMachine cfgShip).active = false ∧
    (initMachine cfgShip).keyDown = false ∧
    Event.press ∈
      (step cfgShip false false (1/100)
        (step cfgShip false false 0 (initMachine cfgShip)).1).2 :=
  ⟨by decide, by decide, by decide,
   (inactive_trigger_transition cfgShip false false 0 (initMachine cfgShip)
      (by decide) (by decide) (by decide)).2.2.2.2
     false false (1/100) (by decide) (by norm_num [cfgShip])⟩

/-- Claim C4: a not-triggered iteration in the active state clears
`active`, requests the ready indicator on and the start indicator off
through the set policy, issues release-all, and clears `keyDown` —
regardless of dwell timing or of whether the key was down. -/
theorem active_untrigger_transition (cfg : Config) (e k : Bool) (now : Rat) (m : Machine)
    (ht : checkStops cfg e k = false) (ha : m.active = true) :
    (step cfg e k now m).1.active = false ∧
    (step cfg e k now m).1.keyDown = false ∧
    Event.setReady true ∈ (step cfg e k now m).2 ∧
    Event.setStart false ∈ (step cfg e k now m).2 ∧
    Event.releaseAll ∈ (step cfg e k now m).2 := by
  simp [step, ht, ha, releaseKeyPress]

/-- Witness for C4: a mid-dwell machine (key held, dwell not elapsed)
read with safe inputs releases the key and clears `keyDown` in that same
iteration. -/
theorem active_untrigger_transition_witness :
    checkStops cfgShip true true = false ∧ mDwell.active = true ∧ mDwell.keyDown = true ∧
    (step cfgShip true true 0 mDwell).1.keyDown = false ∧
    Event.releaseAll ∈ (step cfgShip true true 0 mDwell).2 :=
  ⟨by decide, by decide, by decide,
   (active_untrigger_transition cfgShip true true 0 mDwell (by decide) (by decide)).2.1,
   (active_untrigger_transition cfgShip true true 0 mDwell (by decide) (by decide)).2.2.2.2⟩

/-- Claim C10: on an Active-to-Inactive transition iteration run with
LEDs enabled and flashing-only off, the start LED ends the iteration on,
because the unconditional key release sets it on after the transition
code set it off. -/
theorem active_untrigger_startLed_on (cfg : Config) (e k : Bool) (now : Rat) (m : Machine)
    (ht : checkStops cfg e k = false) (ha : m.active = true)
    (hl : cfg.disableLeds = false) (hf : cfg.flashingLedsOnly = false) :
    (step cfg e k now m).1.ledStart = true := by
  simp [step, ht, ha, releaseKeyPress, setPin, hl, hf]

/-- Witness for C10: the shipped configuration has LEDs enabled and
flashing-only off, and a mid-dwell transition leaves the start LED on. -/
theorem active_untrigger_startLed_on_witness :
    checkStops cfgShip true true = false ∧ mDwell.active = true ∧
    cfgShip.disableLeds = false ∧ cfgShip.flashingLedsOnly = false ∧
    (step cfgShip true true 0 mDwell).1.ledStart = true :=
  ⟨by decide, by decide, by decide, by decide,
   active_untrigger_startLed_on cfgShip true true 0 mDwell
     (by decide) (by decide) (by decide) (by decide)⟩

/-- Counterexample to claim C9 as stated: an inactive machine whose
`timeLastKeypress` is 0, read triggered, has `timeLastKeypress` changed
(to the sentinel −100) in an iteration that performs no key press — a
write without the corresponding action. -/
theorem timeLastKeypress_speculative_write_cex :
    (step cfgShip false false 0 mIdle).1.timeLastKeypress ≠ mIdle.timeLastKeypress ∧
    Event.press ∉ (step cfgShip false false 0 mIdle).2 := by
  refine ⟨by norm_num [mIdle, cfgShip, step, checkStops], ?_⟩
  norm_num [mIdle, cfgShip, step, checkStops]

/-- Claim C9 (amended): `timeLastFlashed` changes only in iterations
that perform a ready-indicator toggle and is stamped with the clock at
the toggle; `timeLastKeypress` is stamped with the clock exactly at a
key press, and its only other write is the reset to the sentinel −100 on
an Inactive-to-Active transition iteration (which performs no action). -/
theorem timestamps_written_only_at_actions (cfg : Config) (e k : Bool) (now : Rat) (m : Machine) :
    ((step cfg e k now m).1.timeLastFlashed ≠ m.timeLastFlashed →
      Event.toggleReady ∈ (step cfg e k now m).2) ∧
    (Event.toggleReady ∈ (step cfg e k now m).2 →
      (step cfg e k now m).1.timeLastFlashed = now) ∧
    ((step cfg e k now m).1.timeLastKeypress ≠ m.timeLastKeypress →
      (Event.press ∈ (step cfg e k now m).2 ∧ (step cfg e k now m).1.timeLastKeypress = now) ∨
      (checkStops cfg e k = true ∧ m.active = false ∧
        (step cfg e k now m).1.timeLastKeypress = -100 ∧ (step cfg e k now m).2 = [])) ∧
    (Event.press ∈ (step cfg e k now m).2 → (step cfg e k now m).1.timeLastKeypress = now) := by
  simp only [step]
  split_ifs <;> simp_all [sendKeyPress, releaseKeyPress]

/-- Witness for C9 (amended): a triggered active iteration whose flash
stamp changes does contain a toggle event. -/
theorem timestamps_written_only_at_actions_witness :
    (step cfgShip false false 0 mFlash).1.timeLastFlashed ≠ mFlash.timeLastFlashed ∧
    Event.toggleReady ∈ (step cfgShip false false 0 mFlash).2 :=
  ⟨by norm_num [mFlash, cfgShip, step, checkStops, sendKeyPress, releaseKeyPress,
                togglePin, setPin],
   (timestamps_written_only_at_actions cfgShip false false 0 mFlash).1
     (by norm_num [mFlash, cfgShip, step, checkStops, sendKeyPress, releaseKeyPress,
                   togglePin, setPin])⟩
